import Mathlib

/-!
# Verification of the Waylis SQLite database adapter

A shallow embedding of `src/sqlite.ts` (class `SqliteDatabase`).  The adapter
stores four entity kinds (chats, messages, confirmed steps, file metadata) in
four SQLite tables and exposes typed CRUD operations over them.

Modelling conventions.

* A JavaScript `Date` is its integer epoch-millisecond value (`Int`);
  `date.getTime()` and `new Date(ms)` are therefore the identity.
* SQL `NULL` in a nullable column is `Option.none`.
* A JavaScript value that is statically `T | undefined | null` is `JSOpt T`
  (three-valued: `undef`, `null`, `val`), since `rowToMessage` distinguishes
  `undefined` from `null` observably.
* The serialized text stored in the JSON columns is modelled by its parse
  outcome (`JsonText`): `wellFormed v` stands for any text that
  `JSON.parse` decodes to the value `v` (in particular every
  `JSON.stringify` output), `malformed s` for any stored text on which
  `JSON.parse` throws.  `JSON.parse (JSON.stringify v) = v` for the plain
  data values in scope.
* The SQLite engine itself (assumed correct by the spec) is modelled by list
  operations on the table contents: `INSERT` appends, a `SELECT` without
  `ORDER BY` scans in stored (rowid) order, `ORDER BY` sorts with the BINARY
  text collation (byte order of UTF-8, i.e. code-point order, `strLt`).
* Thrown JS errors are `Except.error` with the error kind the spec assigns
  to them: the `if (!this.db) throw` guards are `notOpenError`, a UNIQUE
  primary-key violation on `INSERT` is `constraintError`, a `JSON.parse`
  failure on read is `serializationError`.
-/

/-- A JSON value (the structured payloads `body` and `replyRestriction`).
Numbers are modelled as integers; the payloads in scope use none. -/
inductive JsonVal
  | null
  | bool (b : Bool)
  | num (n : Int)
  | str (s : String)
  | arr (items : List JsonVal)
  | obj (fields : List (String × JsonVal))

/-- JavaScript truthiness of a `JsonVal` seen as a JS value:
`null`, `false`, `0` and `""` are falsy, everything else truthy. -/
def JsonVal.truthy : JsonVal → Bool
  | .null => false
  | .bool b => b
  | .num n => !(n == 0)
  | .str s => !(s == "")
  | .arr _ => true
  | .obj _ => true

/-- A stored JSON text column value, by its `JSON.parse` outcome:
`wellFormed v` is any text parsing to `v` (every `JSON.stringify` output is
of this form), `malformed s` is a stored text `s` on which parsing throws. -/
inductive JsonText
  | wellFormed (v : JsonVal)
  | malformed (s : String)

/-- JavaScript truthiness of the raw stored text: `JSON.stringify` output is
never the empty string, so `wellFormed` is always truthy; a malformed stored
text is truthy unless it is `""`. -/
def JsonText.truthy : JsonText → Bool
  | .wellFormed _ => true
  | .malformed s => !(s == "")

/-- A JavaScript optional value: `undefined`, `null`, or a present value.
The static TS types use only `undef`/`val`, but `rowToMessage` produces
`null` for `threadID`, so all three are observable. -/
inductive JSOpt (α : Type)
  | undef
  | null
  | val (a : α)
deriving DecidableEq

/-- JS `x ?? null` followed by binding into a SQL parameter:
`undefined` and `null` both become SQL `NULL`. -/
def JSOpt.bindOrNull : JSOpt α → Option α
  | .undef => none
  | .null => none
  | .val a => some a

/-- Reading a nullable column as `row.x ?? undefined`: SQL `NULL` becomes
`undefined`. -/
def colOrUndef : Option α → JSOpt α
  | none => .undef
  | some a => .val a

/-- Reading a nullable column with no coercion (`row.threadID` verbatim):
SQL `NULL` surfaces as JS `null`. -/
def colRaw : Option α → JSOpt α
  | none => .null
  | some a => .val a

/-- The `Chat` record of the shared interface (`createdAt` in epoch ms). -/
structure Chat where
  id : String
  name : String
  creatorID : String
  createdAt : Int
deriving DecidableEq, Repr

/-- The `Message` record as it exists at runtime: the optional fields carry
their JS optional value (`undefined` / `null` / present). -/
structure Message where
  id : String
  chatID : String
  senderID : String
  replyTo : JSOpt String
  threadID : JSOpt String
  scene : JSOpt String
  step : JSOpt String
  body : JsonVal
  replyRestriction : JSOpt JsonVal
  createdAt : Int

/-- The `ConfirmedStep` record. -/
structure ConfirmedStep where
  id : String
  threadID : String
  messageID : String
  scene : String
  step : String
  createdAt : Int
deriving DecidableEq, Repr

/-- The `FileMeta` record. -/
structure FileMeta where
  id : String
  name : String
  size : Int
  mimeType : String
  createdAt : Int
deriving DecidableEq, Repr

/-- A row of the `chats` table. -/
structure ChatRow where
  id : String
  name : String
  creatorID : String
  createdAt : Int
deriving DecidableEq, Repr

/-- A row of the `messages` table; `replyTo`, `threadID`, `scene`, `step`
and `replyRestriction` are nullable columns, `body` is `NOT NULL`. -/
structure MessageRow where
  id : String
  chatID : String
  senderID : String
  replyTo : Option String
  threadID : Option String
  scene : Option String
  step : Option String
  body : JsonText
  replyRestriction : Option JsonText
  createdAt : Int

/-- A row of the `confirmed_steps` table. -/
structure StepRow where
  id : String
  threadID : String
  messageID : String
  scene : String
  step : String
  createdAt : Int
deriving DecidableEq, Repr

/-- A row of the `files` table. -/
structure FileRow where
  id : String
  name : String
  size : Int
  mimeType : String
  createdAt : Int
deriving DecidableEq, Repr

/-- The error kinds of the spec that the adapter's thrown errors map to. -/
inductive DBErr
  | notOpenError
  | constraintError
  | serializationError
deriving DecidableEq, Repr

/-- State of one `SqliteDatabase` instance together with its data file:
`isOpen` mirrors `this.db !== undefined` (kept in sync with `this.isOpen`),
the four lists are the table contents in stored (rowid / insertion) order. -/
structure DBState where
  isOpen : Bool
  chats : List ChatRow
  messages : List MessageRow
  confirmed_steps : List StepRow
  files : List FileRow

/-- SQLite BINARY collation on TEXT (memcmp of UTF-8 bytes), i.e.
lexicographic code-point order on the character lists. -/
def charListLt : List Char → List Char → Bool
  | [], [] => false
  | [], _ :: _ => true
  | _ :: _, [] => false
  | a :: as, b :: bs =>
    if a < b then true else if b < a then false else charListLt as bs

/-- Lexicographic (BINARY-collation) order on strings. -/
def strLt (a b : String) : Bool :=
  charListLt a.data b.data

namespace SqliteDatabase

/-- The `open()` method: idempotent; connects, applies pragmas, creates the tables if
absent (the file contents persist across close/open), prepares statements. -/
def openDB (s : DBState) : DBState :=
  { s with isOpen := true }

/-- The `close()` method: idempotent; releases the connection (`this.db = undefined`,
`this.isOpen = false`). The data file keeps the table contents. -/
def close (s : DBState) : DBState :=
  { s with isOpen := false }

/-- Decoding `rowToChat`. -/
def rowToChat (r : ChatRow) : Chat :=
  { id := r.id, name := r.name, creatorID := r.creatorID,
    createdAt := r.createdAt }

/-- Decoding `rowToMessage`; `JSON.parse` of a malformed stored text throws, which the
spec classifies as a serialization error.  `body` is parsed unconditionally;
`replyRestriction` only when the raw column value is truthy. -/
def rowToMessage (r : MessageRow) : Except DBErr Message :=
  match r.body with
  | .malformed _ => .error .serializationError
  | .wellFormed body =>
    match r.replyRestriction with
    | some t =>
      if t.truthy then
        match t with
        | .malformed _ => .error .serializationError
        | .wellFormed v =>
          .ok { id := r.id, chatID := r.chatID, senderID := r.senderID,
                replyTo := colOrUndef r.replyTo, threadID := colRaw r.threadID,
                scene := colOrUndef r.scene, step := colOrUndef r.step,
                body := body, replyRestriction := .val v,
                createdAt := r.createdAt }
      else
        .ok { id := r.id, chatID := r.chatID, senderID := r.senderID,
              replyTo := colOrUndef r.replyTo, threadID := colRaw r.threadID,
              scene := colOrUndef r.scene, step := colOrUndef r.step,
              body := body, replyRestriction := .undef,
              createdAt := r.createdAt }
    | none =>
      .ok { id := r.id, chatID := r.chatID, senderID := r.senderID,
            replyTo := colOrUndef r.replyTo, threadID := colRaw r.threadID,
            scene := colOrUndef r.scene, step := colOrUndef r.step,
            body := body, replyRestriction := .undef,
            createdAt := r.createdAt }

/-- Decoding `rowToConfirmedStep`. -/
def rowToConfirmedStep (r : StepRow) : ConfirmedStep :=
  { id := r.id, threadID := r.threadID, messageID := r.messageID,
    scene := r.scene, step := r.step, createdAt := r.createdAt }

/-- Decoding `rowToFile`. -/
def rowToFile (r : FileRow) : FileMeta :=
  { id := r.id, name := r.name, size := r.size, mimeType := r.mimeType,
    createdAt := r.createdAt }

/-- Method `addChat`: `INSERT INTO chats ...`; a duplicate primary key makes the
engine throw a UNIQUE-constraint error; otherwise the row is appended. -/
def addChat (s : DBState) (chat : Chat) : Except DBErr DBState :=
  if !s.isOpen then .error .notOpenError
  else if s.chats.any (fun r => r.id == chat.id) then .error .constraintError
  else .ok { s with chats := s.chats ++
    [{ id := chat.id, name := chat.name, creatorID := chat.creatorID,
       createdAt := chat.createdAt }] }

/-- Method `getChatByID`: `SELECT * FROM chats WHERE id = ?`, first matching row or
not-found (`null`, here `none`). -/
def getChatByID (s : DBState) (id : String) : Except DBErr (Option Chat) :=
  if !s.isOpen then .error .notOpenError
  else .ok ((s.chats.find? (fun r => r.id == id)).map rowToChat)

/-- Comparator of `ORDER BY createdAt DESC` on chats (stable for ties). -/
def chatRowLe (a b : ChatRow) : Bool :=
  b.createdAt ≤ a.createdAt

/-- Method `getChatsByCreatorID` (defaults `offset = 0`, `limit = 50` at the call
sites; passed explicitly here). -/
def getChatsByCreatorID (s : DBState) (creatorID : String)
    (offset limit : Nat) : Except DBErr (List Chat) :=
  if !s.isOpen then .error .notOpenError
  else .ok ((((s.chats.filter (fun r => r.creatorID == creatorID)).mergeSort
    chatRowLe).drop offset).take limit |>.map rowToChat)

/-- Method `countChatsByCreatorID`: `SELECT COUNT(1) ... WHERE creatorID = ?`. -/
def countChatsByCreatorID (s : DBState) (creatorID : String) :
    Except DBErr Nat :=
  if !s.isOpen then .error .notOpenError
  else .ok (s.chats.filter (fun r => r.creatorID == creatorID)).length

/-- A partial chat update (`Partial<Chat>` restricted to the fields the
update statement binds); `none` is an absent field. -/
structure ChatPatch where
  name : Option String
  creatorID : Option String
  createdAt : Option Int
deriving DecidableEq, Repr

/-- The effect of `UPDATE chats SET name = coalesce(?, name), creatorID =
coalesce(?, creatorID), createdAt = coalesce(?, createdAt) WHERE id = ?` on
one row: each bound `NULL` keeps the stored value. -/
def applyChatPatch (u : ChatPatch) (r : ChatRow) : ChatRow :=
  { r with name := u.name.getD r.name,
           creatorID := u.creatorID.getD r.creatorID,
           createdAt := u.createdAt.getD r.createdAt }

/-- Method `editChatByID`: runs the coalescing `UPDATE` on every row matching the
id, then returns `getChatByID(id)` on the updated state. -/
def editChatByID (s : DBState) (id : String) (u : ChatPatch) :
    Except DBErr (Option Chat × DBState) :=
  if !s.isOpen then .error .notOpenError
  else
    let newChats := s.chats.map
      (fun r => if r.id == id then applyChatPatch u r else r)
    let s' : DBState := { s with chats := newChats }
    match getChatByID s' id with
    | .error e => .error e
    | .ok c => .ok (c, s')

/-- Method `deleteChatByID`: `DELETE FROM chats WHERE id = ? RETURNING ...`; the
first returned row (or not-found) is given back; the `catch` fallback
(select-then-delete) is observably equivalent and not modelled separately. -/
def deleteChatByID (s : DBState) (id : String) :
    Except DBErr (Option Chat × DBState) :=
  if !s.isOpen then .error .notOpenError
  else
    match s.chats.find? (fun r => r.id == id) with
    | none => .ok (none, s)
    | some r =>
      .ok (some (rowToChat r),
           { s with chats := s.chats.filter (fun r' => !(r'.id == id)) })

/-- Method `addMessage`: binds `replyTo/threadID/scene/step` with `?? null`,
serializes `body` unconditionally (`JSON.stringify`, always a well-formed
text) and `replyRestriction` only when truthy, and appends the row;
a duplicate id is a UNIQUE-constraint error. -/
def addMessage (s : DBState) (msg : Message) : Except DBErr DBState :=
  if !s.isOpen then .error .notOpenError
  else if s.messages.any (fun r => r.id == msg.id) then .error .constraintError
  else .ok { s with messages := s.messages ++
    [{ id := msg.id, chatID := msg.chatID, senderID := msg.senderID,
       replyTo := msg.replyTo.bindOrNull, threadID := msg.threadID.bindOrNull,
       scene := msg.scene.bindOrNull, step := msg.step.bindOrNull,
       body := .wellFormed msg.body,
       replyRestriction :=
         match msg.replyRestriction with
         | .val v => if v.truthy then some (.wellFormed v) else none
         | _ => none,
       createdAt := msg.createdAt }] }

/-- Method `getMessageByID`: `SELECT * FROM messages WHERE id = ?`, decoded by
`rowToMessage` (which can throw a serialization error), or not-found. -/
def getMessageByID (s : DBState) (id : String) :
    Except DBErr (Option Message) :=
  if !s.isOpen then .error .notOpenError
  else
    match s.messages.find? (fun r => r.id == id) with
    | none => .ok none
    | some r =>
      match rowToMessage r with
      | .error e => .error e
      | .ok m => .ok (some m)

/-- Decode a list of rows as `rows.map(r => this.rowToMessage(r))` does:
the first malformed row throws. -/
def rowsToMessages : List MessageRow → Except DBErr (List Message)
  | [] => .ok []
  | r :: rs =>
    match rowToMessage r with
    | .error e => .error e
    | .ok m =>
      match rowsToMessages rs with
      | .error e => .error e
      | .ok ms => .ok (m :: ms)

/-- Method `getMessagesByIDs`: batch fetch with `WHERE id IN (...)`; an empty id
list short-circuits to `[]` before any statement reaches the engine.  The
second component counts the statements issued to the engine by this call
(0 on the short-circuit path, 1 otherwise); the rows of an `IN` query come
back in stored order, not in the order of `ids`. -/
def getMessagesByIDs (s : DBState) (ids : List String) :
    Except DBErr (List Message × Nat) :=
  if !s.isOpen then .error .notOpenError
  else if ids.length == 0 then .ok ([], 0)
  else
    match rowsToMessages (s.messages.filter (fun r => ids.contains r.id)) with
    | .error e => .error e
    | .ok ms => .ok (ms, 1)

/-- Comparator of `ORDER BY createdAt DESC, id DESC` on messages: `a` may
precede `b` iff `(a.createdAt, a.id)` is lexicographically ≥
`(b.createdAt, b.id)`. -/
def msgRowLe (a b : MessageRow) : Bool :=
  decide (b.createdAt < a.createdAt) ||
    (a.createdAt == b.createdAt && !(strLt a.id b.id))

/-- Method `getMessagesByChatID` (defaults `offset = 0`, `limit = 100` at the call
sites; passed explicitly here): filter by chat, order by
`createdAt DESC, id DESC`, then `LIMIT ? OFFSET ?`. -/
def getMessagesByChatID (s : DBState) (chatID : String)
    (offset limit : Nat) : Except DBErr (List Message) :=
  if !s.isOpen then .error .notOpenError
  else
    match rowsToMessages ((((s.messages.filter
        (fun r => r.chatID == chatID)).mergeSort msgRowLe).drop offset).take
        limit) with
    | .error e => .error e
    | .ok ms => .ok ms

/-- Method `getMessagesByChatID(chatID)` with both arguments defaulted
(`offset = 0`, `limit = 100`), as in the TS signature. -/
def getMessagesByChatIDDefault (s : DBState) (chatID : String) :
    Except DBErr (List Message) :=
  getMessagesByChatID s chatID 0 100

/-- Method `deleteOldMessages`: `DELETE FROM messages WHERE createdAt < ?`,
returning `res.changes`, the number of rows removed. -/
def deleteOldMessages (s : DBState) (maxDate : Int) :
    Except DBErr (Nat × DBState) :=
  if !s.isOpen then .error .notOpenError
  else .ok ((s.messages.filter (fun r => decide (r.createdAt < maxDate))).length,
    { s with messages :=
        s.messages.filter (fun r => !decide (r.createdAt < maxDate)) })

/-- Method `deleteMessagesByChatID`: `DELETE FROM messages WHERE chatID = ?`,
returning the number of rows removed. -/
def deleteMessagesByChatID (s : DBState) (chatID : String) :
    Except DBErr (Nat × DBState) :=
  if !s.isOpen then .error .notOpenError
  else .ok ((s.messages.filter (fun r => r.chatID == chatID)).length,
    { s with messages := s.messages.filter (fun r => !(r.chatID == chatID)) })

/-- Method `addConfirmedStep`: plain insert (append-only table). -/
def addConfirmedStep (s : DBState) (step : ConfirmedStep) :
    Except DBErr DBState :=
  if !s.isOpen then .error .notOpenError
  else if s.confirmed_steps.any (fun r => r.id == step.id) then
    .error .constraintError
  else .ok { s with confirmed_steps := s.confirmed_steps ++
    [{ id := step.id, threadID := step.threadID, messageID := step.messageID,
       scene := step.scene, step := step.step, createdAt := step.createdAt }] }

/-- Comparator of `ORDER BY createdAt DESC` on confirmed steps. -/
def stepRowLe (a b : StepRow) : Bool :=
  b.createdAt ≤ a.createdAt

/-- Method `getConfirmedStepsByThreadID`: all steps of the thread, ordered by
`createdAt DESC`, unpaginated. -/
def getConfirmedStepsByThreadID (s : DBState) (threadID : String) :
    Except DBErr (List ConfirmedStep) :=
  if !s.isOpen then .error .notOpenError
  else .ok (((s.confirmed_steps.filter
    (fun r => r.threadID == threadID)).mergeSort stepRowLe).map
    rowToConfirmedStep)

/-- Method `deleteOldConfirmedSteps`: `DELETE FROM confirmed_steps WHERE
createdAt < ?`, returning the number of rows removed. -/
def deleteOldConfirmedSteps (s : DBState) (maxDate : Int) :
    Except DBErr (Nat × DBState) :=
  if !s.isOpen then .error .notOpenError
  else .ok ((s.confirmed_steps.filter
      (fun r => decide (r.createdAt < maxDate))).length,
    { s with confirmed_steps :=
        s.confirmed_steps.filter (fun r => !decide (r.createdAt < maxDate)) })

/-- Method `addFile`: plain insert of the metadata row. -/
def addFile (s : DBState) (data : FileMeta) : Except DBErr DBState :=
  if !s.isOpen then .error .notOpenError
  else if s.files.any (fun r => r.id == data.id) then .error .constraintError
  else .ok { s with files := s.files ++
    [{ id := data.id, name := data.name, size := data.size,
       mimeType := data.mimeType, createdAt := data.createdAt }] }

/-- Method `getFileByID`: `SELECT * FROM files WHERE id = ?`, or not-found. -/
def getFileByID (s : DBState) (id : String) :
    Except DBErr (Option FileMeta) :=
  if !s.isOpen then .error .notOpenError
  else .ok ((s.files.find? (fun r => r.id == id)).map rowToFile)

/-- Method `getFilesByIDs`: batch fetch; same shape as `getMessagesByIDs`
(second component counts engine statements issued by the call). -/
def getFilesByIDs (s : DBState) (ids : List String) :
    Except DBErr (List FileMeta × Nat) :=
  if !s.isOpen then .error .notOpenError
  else if ids.length == 0 then .ok ([], 0)
  else .ok ((s.files.filter (fun r => ids.contains r.id)).map rowToFile, 1)

/-- Method `deleteFileByID`: `DELETE FROM files WHERE id = ? RETURNING ...`; first
returned row or not-found; the select-then-delete fallback is observably
equivalent and not modelled separately. -/
def deleteFileByID (s : DBState) (id : String) :
    Except DBErr (Option FileMeta × DBState) :=
  if !s.isOpen then .error .notOpenError
  else
    match s.files.find? (fun r => r.id == id) with
    | none => .ok (none, s)
    | some r =>
      .ok (some (rowToFile r),
           { s with files := s.files.filter (fun r' => !(r'.id == id)) })

/-- Method `deleteOldFiles`: two-phase purge — `SELECT id FROM files WHERE
createdAt < ?` in stored order, then (when the id list is non-empty)
`DELETE FROM files WHERE id IN (...)`; returns the selected ids. -/
def deleteOldFiles (s : DBState) (maxDate : Int) :
    Except DBErr (List String × DBState) :=
  if !s.isOpen then .error .notOpenError
  else
    let ids := (s.files.filter (fun r => decide (r.createdAt < maxDate))).map
      (fun r => r.id)
    if ids.isEmpty then .ok (ids, s)
    else .ok (ids,
      { s with files := s.files.filter (fun r => !ids.contains r.id) })

/-- The empty, opened database (fresh data file after `open()`). -/
def emptyOpen : DBState :=
  { isOpen := true, chats := [], messages := [], confirmed_steps := [],
    files := [] }

/-- A small open state with one chat and one file, both with id "x". -/
def sampleState : DBState :=
  { isOpen := true,
    chats := [⟨"x", "general", "u1", 1⟩],
    messages := [],
    confirmed_steps := [],
    files := [⟨"x", "a.txt", 3, "text/plain", 1⟩] }

/-- An open state holding one message row whose stored body text does not
parse (external corruption). -/
def corruptState : DBState :=
  { isOpen := true,
    chats := [],
    messages := [⟨"bad", "c1", "u1", none, none, none, none,
      JsonText.malformed "oops", none, 1⟩],
    confirmed_steps := [],
    files := [] }

/-- An open state with two messages and two confirmed steps, with
createdAt 1 and 5 (for exercising the age-based purges at T = 5). -/
def purgeState : DBState :=
  { isOpen := true,
    chats := [],
    messages :=
      [⟨"m1", "c1", "u1", none, none, none, none,
          JsonText.wellFormed (JsonVal.str "a"), none, 1⟩,
       ⟨"m2", "c1", "u1", none, none, none, none,
          JsonText.wellFormed (JsonVal.str "b"), none, 5⟩],
    confirmed_steps :=
      [⟨"s1", "t1", "m1", "sc", "st", 1⟩, ⟨"s2", "t1", "m2", "sc", "st", 5⟩],
    files := [] }

/-- An open state with two files (ids "a" and "b" in stored order). -/
def twoFilesState : DBState :=
  { isOpen := true, chats := [], messages := [], confirmed_steps := [],
    files := [⟨"a", "a.txt", 1, "t", 1⟩, ⟨"b", "b.txt", 1, "t", 9⟩] }

/-- Total decoding of a message row, agreeing with `rowToMessage` whenever
the row's stored JSON parses (a placeholder is produced otherwise); used to
state results about row lists under the no-corruption invariant. -/
def rowToMessageOk (r : MessageRow) : Message :=
  { id := r.id, chatID := r.chatID, senderID := r.senderID,
    replyTo := colOrUndef r.replyTo, threadID := colRaw r.threadID,
    scene := colOrUndef r.scene, step := colOrUndef r.step,
    body := match r.body with
      | .wellFormed v => v
      | .malformed _ => JsonVal.null,
    replyRestriction := match r.replyRestriction with
      | some (.wellFormed v) => .val v
      | _ => .undef,
    createdAt := r.createdAt }

/-- The stored JSON columns of a row parse (no external corruption): the
body text is well-formed and a stored `replyRestriction` text is either
well-formed or the falsy empty string.  Every row written by `addMessage`
satisfies this. -/
def RowParses (r : MessageRow) : Prop :=
  (∃ v, r.body = JsonText.wellFormed v) ∧
  (∀ t, r.replyRestriction = some (JsonText.malformed t) → t = "")

/-- An open state with three messages of chat "c1" (ids "a", "b", "c";
createdAt 1, 2, 2) plus one message of another chat, stored out of order. -/
def sortState : DBState :=
  { isOpen := true,
    chats := [],
    messages :=
      [⟨"a", "c1", "u1", none, none, none, none,
          JsonText.wellFormed (JsonVal.str "x"), none, 1⟩,
       ⟨"b", "c1", "u1", none, none, none, none,
          JsonText.wellFormed (JsonVal.str "y"), none, 2⟩,
       ⟨"d", "c2", "u1", none, none, none, none,
          JsonText.wellFormed (JsonVal.str "w"), none, 9⟩,
       ⟨"c", "c1", "u1", none, none, none, none,
          JsonText.wellFormed (JsonVal.str "z"), none, 2⟩],
    confirmed_steps := [],
    files := [] }

/-- C1: for a valid Chat record (id not already present, adapter open),
`addChat` followed by `getChatByID` on its id returns an equal record; and a
Message inserted with body `{text: "hello"}` and no `replyRestriction` is
returned by `getMessageByID` with a deep-equal body and an absent
(`undefined`) `replyRestriction`. -/
theorem addChat_addMessage_roundtrip (s : DBState) (c : Chat) (m : Message)
    (hopen : s.isOpen = true)
    (hc : ∀ r ∈ s.chats, r.id ≠ c.id)
    (hm : ∀ r ∈ s.messages, r.id ≠ m.id)
    (hbody : m.body = JsonVal.obj [("text", JsonVal.str "hello")])
    (hrr : m.replyRestriction = JSOpt.undef) :
    (∃ s₁, addChat s c = .ok s₁ ∧ getChatByID s₁ c.id = .ok (some c)) ∧
    (∃ s₂ m', addMessage s m = .ok s₂ ∧
       getMessageByID s₂ m.id = .ok (some m') ∧
       m'.body = JsonVal.obj [("text", JsonVal.str "hello")] ∧
       m'.replyRestriction = JSOpt.undef) := by
  have hcAny : s.chats.any (fun r => r.id == c.id) = false := by
    simp only [List.any_eq_false, beq_iff_eq]
    exact fun r hr => hc r hr
  have hmAny : s.messages.any (fun r => r.id == m.id) = false := by
    simp only [List.any_eq_false, beq_iff_eq]
    exact fun r hr => hm r hr
  have hcFind : s.chats.find? (fun r => r.id == c.id) = none := by
    simp only [List.find?_eq_none, beq_iff_eq]
    exact fun r hr => hc r hr
  have hmFind : s.messages.find? (fun r => r.id == m.id) = none := by
    simp only [List.find?_eq_none, beq_iff_eq]
    exact fun r hr => hm r hr
  constructor
  · have h1 : addChat s c =
        .ok { s with chats := s.chats ++ [⟨c.id, c.name, c.creatorID, c.createdAt⟩] } := by
      simp only [addChat, hopen, hcAny, Bool.not_true, Bool.false_eq_true,
        if_false]
    have h2 : getChatByID
        { s with chats := s.chats ++ [⟨c.id, c.name, c.creatorID, c.createdAt⟩] }
        c.id = .ok (some c) := by
      simp only [getChatByID, hopen, Bool.not_true, Bool.false_eq_true,
        if_false, List.find?_append, hcFind, Option.none_or, List.find?_cons,
        List.find?_nil, beq_self_eq_true, if_pos, rowToChat, Option.map_some]
      rfl
    exact ⟨_, h1, h2⟩
  · have haddm : addMessage s m =
        .ok { s with messages := s.messages ++
          [⟨m.id, m.chatID, m.senderID, m.replyTo.bindOrNull,
            m.threadID.bindOrNull, m.scene.bindOrNull, m.step.bindOrNull,
            .wellFormed m.body, none, m.createdAt⟩] } := by
      simp only [addMessage, hopen, hmAny, Bool.not_true, Bool.false_eq_true,
        if_false, hrr]
    have hget : getMessageByID
        { s with messages := s.messages ++
          [⟨m.id, m.chatID, m.senderID, m.replyTo.bindOrNull,
            m.threadID.bindOrNull, m.scene.bindOrNull, m.step.bindOrNull,
            .wellFormed m.body, none, m.createdAt⟩] } m.id =
        .ok (some ⟨m.id, m.chatID, m.senderID, colOrUndef m.replyTo.bindOrNull,
          colRaw m.threadID.bindOrNull, colOrUndef m.scene.bindOrNull,
          colOrUndef m.step.bindOrNull, m.body, .undef, m.createdAt⟩) := by
      simp only [getMessageByID, hopen, Bool.not_true, Bool.false_eq_true,
        if_false, List.find?_append, hmFind, Option.none_or, List.find?_cons,
        List.find?_nil, beq_self_eq_true, if_pos, rowToMessage]
    exact ⟨_, _, haddm, hget, hbody, rfl⟩

/-- Witness for C1 at a concrete open state, chat and message. -/
theorem addChat_addMessage_roundtrip_witness :
    (∃ s₁, addChat emptyOpen
        { id := "c1", name := "general", creatorID := "u1", createdAt := 5 } =
          .ok s₁ ∧
      getChatByID s₁ "c1" = .ok (some
        { id := "c1", name := "general", creatorID := "u1", createdAt := 5 })) ∧
    (∃ s₂ m', addMessage emptyOpen
        { id := "m1", chatID := "c1", senderID := "u1", replyTo := .undef,
          threadID := .undef, scene := .undef, step := .undef,
          body := JsonVal.obj [("text", JsonVal.str "hello")],
          replyRestriction := .undef, createdAt := 6 } = .ok s₂ ∧
      getMessageByID s₂ "m1" = .ok (some m') ∧
      m'.body = JsonVal.obj [("text", JsonVal.str "hello")] ∧
      m'.replyRestriction = JSOpt.undef) :=
  addChat_addMessage_roundtrip emptyOpen
    { id := "c1", name := "general", creatorID := "u1", createdAt := 5 }
    { id := "m1", chatID := "c1", senderID := "u1", replyTo := .undef,
      threadID := .undef, scene := .undef, step := .undef,
      body := JsonVal.obj [("text", JsonVal.str "hello")],
      replyRestriction := .undef, createdAt := 6 }
    rfl (by simp [emptyOpen]) (by simp [emptyOpen]) rfl rfl

/-- C3: `deleteChatByID` (and `deleteFileByID`, same contract) deletes the
row with the given id and returns the prior record; a non-existent id gives
not-found (not an error) with the state unchanged, and a second delete of
the same id after a successful delete also gives not-found. -/
theorem deleteByID_contract (s : DBState) (id : String)
    (hopen : s.isOpen = true) :
    (s.chats.find? (fun r => r.id == id) = none →
      deleteChatByID s id = .ok (none, s)) ∧
    (∀ r, s.chats.find? (fun r0 => r0.id == id) = some r →
      ∃ s', deleteChatByID s id = .ok (some (rowToChat r), s') ∧
        (∀ r', r' ∈ s'.chats ↔ r' ∈ s.chats ∧ r'.id ≠ id) ∧
        deleteChatByID s' id = .ok (none, s')) ∧
    (s.files.find? (fun r => r.id == id) = none →
      deleteFileByID s id = .ok (none, s)) ∧
    (∀ r, s.files.find? (fun r0 => r0.id == id) = some r →
      ∃ s', deleteFileByID s id = .ok (some (rowToFile r), s') ∧
        (∀ r', r' ∈ s'.files ↔ r' ∈ s.files ∧ r'.id ≠ id) ∧
        deleteFileByID s' id = .ok (none, s')) := by
  refine ⟨?_, ?_, ?_, ?_⟩
  · intro hnone
    simp only [deleteChatByID, hopen, Bool.not_true, Bool.false_eq_true,
      if_false, hnone]
  · intro r hfind
    refine ⟨{ s with chats := s.chats.filter (fun r' => !(r'.id == id)) },
      ?_, ?_, ?_⟩
    · simp only [deleteChatByID, hopen, Bool.not_true, Bool.false_eq_true,
        if_false, hfind]
    · intro r'
      simp only [List.mem_filter, Bool.not_eq_true', beq_eq_false_iff_ne,
        ne_eq]
    · have hnone2 : (s.chats.filter (fun r' => !(r'.id == id))).find?
          (fun r0 => r0.id == id) = none := by
        rw [List.find?_eq_none]
        intro x hx
        have := (List.mem_filter.mp hx).2
        simpa using this
      simp only [deleteChatByID, hopen, Bool.not_true, Bool.false_eq_true,
        if_false, hnone2]
  · intro hnone
    simp only [deleteFileByID, hopen, Bool.not_true, Bool.false_eq_true,
      if_false, hnone]
  · intro r hfind
    refine ⟨{ s with files := s.files.filter (fun r' => !(r'.id == id)) },
      ?_, ?_, ?_⟩
    · simp only [deleteFileByID, hopen, Bool.not_true, Bool.false_eq_true,
        if_false, hfind]
    · intro r'
      simp only [List.mem_filter, Bool.not_eq_true', beq_eq_false_iff_ne,
        ne_eq]
    · have hnone2 : (s.files.filter (fun r' => !(r'.id == id))).find?
          (fun r0 => r0.id == id) = none := by
        rw [List.find?_eq_none]
        intro x hx
        have := (List.mem_filter.mp hx).2
        simpa using this
      simp only [deleteFileByID, hopen, Bool.not_true, Bool.false_eq_true,
        if_false, hnone2]

/-- Witness for C3 at a concrete state holding chat "x" and file "x". -/
theorem deleteByID_contract_witness :
    (∃ s', deleteChatByID sampleState "x" =
        .ok (some (rowToChat ⟨"x", "general", "u1", 1⟩), s') ∧
      (∀ r', r' ∈ s'.chats ↔ r' ∈ sampleState.chats ∧ r'.id ≠ "x") ∧
      deleteChatByID s' "x" = .ok (none, s')) ∧
    (∃ s', deleteFileByID sampleState "x" =
        .ok (some (rowToFile ⟨"x", "a.txt", 3, "text/plain", 1⟩), s') ∧
      (∀ r', r' ∈ s'.files ↔ r' ∈ sampleState.files ∧ r'.id ≠ "x") ∧
      deleteFileByID s' "x" = .ok (none, s')) :=
  ⟨(deleteByID_contract sampleState "x" rfl).2.1 ⟨"x", "general", "u1", 1⟩ rfl,
   (deleteByID_contract sampleState "x" rfl).2.2.2
     ⟨"x", "a.txt", 3, "text/plain", 1⟩ rfl⟩

/-- C9: when the stored body text of the row found by id fails to parse,
`getMessageByID` fails with the serialization error kind (it neither
returns a record nor fails with a different kind). -/
theorem getMessageByID_serialization (s : DBState) (id : String)
    (r : MessageRow) (txt : String)
    (hopen : s.isOpen = true)
    (hfind : s.messages.find? (fun r0 => r0.id == id) = some r)
    (hbody : r.body = JsonText.malformed txt) :
    getMessageByID s id = .error DBErr.serializationError := by
  simp only [getMessageByID, hopen, Bool.not_true, Bool.false_eq_true,
    if_false, hfind, rowToMessage, hbody]

/-- Witness for C9 at a concrete state with a corrupted body column. -/
theorem getMessageByID_serialization_witness :
    getMessageByID corruptState "bad" = .error DBErr.serializationError :=
  getMessageByID_serialization corruptState "bad"
    ⟨"bad", "c1", "u1", none, none, none, none, JsonText.malformed "oops",
      none, 1⟩ "oops" rfl rfl rfl

/-- A JS-typed optional value (never `null` in the static types) survives
the `?? null` store / `?? undefined` read round trip unchanged. -/
theorem colOrUndef_bindOrNull (x : JSOpt α) (h : x ≠ JSOpt.null) :
    colOrUndef x.bindOrNull = x := by
  cases x with
  | undef => rfl
  | null => exact absurd rfl h
  | val a => rfl

/-- C10: a Message inserted with `threadID` absent is read back with
`threadID = null` (not `undefined`), while the other optional fields
(`replyTo`, `scene`, `step`, `replyRestriction`) and `body` round-trip
identically; in particular absent ones come back `undefined`. -/
theorem addMessage_threadID_null (s : DBState) (m : Message)
    (hopen : s.isOpen = true)
    (hfresh : ∀ r ∈ s.messages, r.id ≠ m.id)
    (hthread : m.threadID = JSOpt.undef)
    (hreply : m.replyTo ≠ JSOpt.null)
    (hscene : m.scene ≠ JSOpt.null)
    (hstep : m.step ≠ JSOpt.null)
    (hrr : m.replyRestriction = JSOpt.undef ∨
      ∃ fs, m.replyRestriction = JSOpt.val (JsonVal.obj fs)) :
    ∃ s' m', addMessage s m = .ok s' ∧
      getMessageByID s' m.id = .ok (some m') ∧
      m'.threadID = JSOpt.null ∧
      m'.replyTo = m.replyTo ∧ m'.scene = m.scene ∧ m'.step = m.step ∧
      m'.body = m.body ∧ m'.replyRestriction = m.replyRestriction ∧
      m'.id = m.id ∧ m'.chatID = m.chatID ∧ m'.senderID = m.senderID ∧
      m'.createdAt = m.createdAt := by
  have hmAny : s.messages.any (fun r => r.id == m.id) = false := by
    simp only [List.any_eq_false, beq_iff_eq]
    exact fun r hr => hfresh r hr
  have hmFind : s.messages.find? (fun r => r.id == m.id) = none := by
    simp only [List.find?_eq_none, beq_iff_eq]
    exact fun r hr => hfresh r hr
  have hrt : colOrUndef m.replyTo.bindOrNull = m.replyTo :=
    colOrUndef_bindOrNull m.replyTo hreply
  have hsc : colOrUndef m.scene.bindOrNull = m.scene :=
    colOrUndef_bindOrNull m.scene hscene
  have hst : colOrUndef m.step.bindOrNull = m.step :=
    colOrUndef_bindOrNull m.step hstep
  rcases hrr with hrr | ⟨fs, hrr⟩
  · have haddm : addMessage s m =
        .ok { s with messages := s.messages ++
          [⟨m.id, m.chatID, m.senderID, m.replyTo.bindOrNull,
            m.threadID.bindOrNull, m.scene.bindOrNull, m.step.bindOrNull,
            .wellFormed m.body, none, m.createdAt⟩] } := by
      simp only [addMessage, hopen, hmAny, Bool.not_true, Bool.false_eq_true,
        if_false, hrr]
    have hget : getMessageByID
        { s with messages := s.messages ++
          [⟨m.id, m.chatID, m.senderID, m.replyTo.bindOrNull,
            m.threadID.bindOrNull, m.scene.bindOrNull, m.step.bindOrNull,
            .wellFormed m.body, none, m.createdAt⟩] } m.id =
        .ok (some ⟨m.id, m.chatID, m.senderID,
          colOrUndef m.replyTo.bindOrNull, colRaw m.threadID.bindOrNull,
          colOrUndef m.scene.bindOrNull, colOrUndef m.step.bindOrNull,
          m.body, .undef, m.createdAt⟩) := by
      simp only [getMessageByID, hopen, Bool.not_true, Bool.false_eq_true,
        if_false, List.find?_append, hmFind, Option.none_or, List.find?_cons,
        List.find?_nil, beq_self_eq_true, if_pos, rowToMessage]
    refine ⟨_, _, haddm, hget, ?_, hrt, hsc, hst, rfl, hrr.symm, rfl, rfl,
      rfl, rfl⟩
    simp only [hthread, JSOpt.bindOrNull, colRaw]
  · have haddm : addMessage s m =
        .ok { s with messages := s.messages ++
          [⟨m.id, m.chatID, m.senderID, m.replyTo.bindOrNull,
            m.threadID.bindOrNull, m.scene.bindOrNull, m.step.bindOrNull,
            .wellFormed m.body, some (.wellFormed (JsonVal.obj fs)),
            m.createdAt⟩] } := by
      simp only [addMessage, hopen, hmAny, Bool.not_true, Bool.false_eq_true,
        if_false, hrr, JsonVal.truthy, if_pos]
    have hget : getMessageByID
        { s with messages := s.messages ++
          [⟨m.id, m.chatID, m.senderID, m.replyTo.bindOrNull,
            m.threadID.bindOrNull, m.scene.bindOrNull, m.step.bindOrNull,
            .wellFormed m.body, some (.wellFormed (JsonVal.obj fs)),
            m.createdAt⟩] } m.id =
        .ok (some ⟨m.id, m.chatID, m.senderID,
          colOrUndef m.replyTo.bindOrNull, colRaw m.threadID.bindOrNull,
          colOrUndef m.scene.bindOrNull, colOrUndef m.step.bindOrNull,
          m.body, .val (JsonVal.obj fs), m.createdAt⟩) := by
      simp only [getMessageByID, hopen, Bool.not_true, Bool.false_eq_true,
        if_false, List.find?_append, hmFind, Option.none_or, List.find?_cons,
        List.find?_nil, beq_self_eq_true, if_pos, rowToMessage,
        JsonText.truthy, if_pos]
    refine ⟨_, _, haddm, hget, ?_, hrt, hsc, hst, rfl, hrr.symm, rfl, rfl,
      rfl, rfl⟩
    simp only [hthread, JSOpt.bindOrNull, colRaw]

/-- Witness for C10: a concrete message with all optional fields absent. -/
theorem addMessage_threadID_null_witness :
    ∃ s' m', addMessage emptyOpen
      { id := "m1", chatID := "c1", senderID := "u1", replyTo := .undef,
        threadID := .undef, scene := .undef, step := .undef,
        body := JsonVal.str "hi", replyRestriction := .undef,
        createdAt := 7 } = .ok s' ∧
      getMessageByID s' "m1" = .ok (some m') ∧
      m'.threadID = JSOpt.null ∧
      m'.replyTo = JSOpt.undef ∧ m'.scene = JSOpt.undef ∧
      m'.step = JSOpt.undef ∧
      m'.body = JsonVal.str "hi" ∧ m'.replyRestriction = JSOpt.undef ∧
      m'.id = "m1" ∧ m'.chatID = "c1" ∧ m'.senderID = "u1" ∧
      m'.createdAt = 7 :=
  addMessage_threadID_null emptyOpen
    { id := "m1", chatID := "c1", senderID := "u1", replyTo := .undef,
      threadID := .undef, scene := .undef, step := .undef,
      body := JsonVal.str "hi", replyRestriction := .undef, createdAt := 7 }
    rfl (by simp [emptyOpen]) rfl (by simp) (by simp) (by simp) (Or.inl rfl)

/-- C8: `deleteOldMessages` and `deleteOldConfirmedSteps` delete exactly the
rows with `createdAt` strictly below `maxDate` (rows exactly at `maxDate`
are kept) and return the number of rows deleted. -/
theorem deleteOld_strict (s : DBState) (maxDate : Int)
    (hopen : s.isOpen = true) :
    (∃ n s', deleteOldMessages s maxDate = .ok (n, s') ∧
      (∀ r, r ∈ s'.messages ↔ r ∈ s.messages ∧ ¬ r.createdAt < maxDate) ∧
      n + s'.messages.length = s.messages.length ∧
      (∀ r ∈ s.messages, r.createdAt = maxDate → r ∈ s'.messages)) ∧
    (∃ n s', deleteOldConfirmedSteps s maxDate = .ok (n, s') ∧
      (∀ r, r ∈ s'.confirmed_steps ↔
        r ∈ s.confirmed_steps ∧ ¬ r.createdAt < maxDate) ∧
      n + s'.confirmed_steps.length = s.confirmed_steps.length ∧
      (∀ r ∈ s.confirmed_steps, r.createdAt = maxDate →
        r ∈ s'.confirmed_steps)) := by
  constructor
  · refine ⟨(s.messages.filter (fun r => decide (r.createdAt < maxDate))).length,
      { s with messages :=
          s.messages.filter (fun r => !decide (r.createdAt < maxDate)) },
      ?_, ?_, ?_, ?_⟩
    · simp only [deleteOldMessages, hopen, Bool.not_true, Bool.false_eq_true,
        if_false]
    · intro r
      simp [List.mem_filter]
    · simpa using (List.length_eq_length_filter_add
        (fun r : MessageRow => decide (r.createdAt < maxDate))
        (l := s.messages)).symm
    · intro r hr heq
      simp [List.mem_filter, hr, heq]
  · refine ⟨(s.confirmed_steps.filter (fun r => decide (r.createdAt < maxDate))).length,
      { s with confirmed_steps := s.confirmed_steps.filter (fun r => !decide (r.createdAt < maxDate)) },
      ?_, ?_, ?_, ?_⟩
    · simp only [deleteOldConfirmedSteps, hopen, Bool.not_true,
        Bool.false_eq_true, if_false]
    · intro r
      simp [List.mem_filter]
    · simpa using (List.length_eq_length_filter_add
        (fun r : StepRow => decide (r.createdAt < maxDate))
        (l := s.confirmed_steps)).symm
    · intro r hr heq
      simp [List.mem_filter, hr, heq]

/-- Witness for C8 at a state with rows below and exactly at the cutoff. -/
theorem deleteOld_strict_witness :
    (∃ n s', deleteOldMessages purgeState 5 = .ok (n, s') ∧
      (∀ r, r ∈ s'.messages ↔ r ∈ purgeState.messages ∧
        ¬ r.createdAt < 5) ∧
      n + s'.messages.length = purgeState.messages.length ∧
      (∀ r ∈ purgeState.messages, r.createdAt = 5 → r ∈ s'.messages)) ∧
    (∃ n s', deleteOldConfirmedSteps purgeState 5 = .ok (n, s') ∧
      (∀ r, r ∈ s'.confirmed_steps ↔ r ∈ purgeState.confirmed_steps ∧
        ¬ r.createdAt < 5) ∧
      n + s'.confirmed_steps.length = purgeState.confirmed_steps.length ∧
      (∀ r ∈ purgeState.confirmed_steps, r.createdAt = 5 →
        r ∈ s'.confirmed_steps)) :=
  deleteOld_strict purgeState 5 rfl

/-- C7: batch fetches with an empty id list return an empty result with no
engine statement issued (the counter in the result is 0); for non-empty
input the result order follows stored order, which can differ from the
order of the requested ids. -/
theorem getByIDs_empty_shortcircuit (s : DBState)
    (hopen : s.isOpen = true) :
    getMessagesByIDs s [] = .ok ([], 0) ∧
    getFilesByIDs s [] = .ok ([], 0) ∧
    (∃ out, getFilesByIDs twoFilesState ["b", "a"] = .ok (out, 1) ∧
      out.map (fun f => f.id) ≠ ["b", "a"]) := by
  refine ⟨?_, ?_, ?_⟩
  · simp [getMessagesByIDs, hopen]
  · simp [getFilesByIDs, hopen]
  · refine ⟨[⟨"a", "a.txt", 1, "t", 1⟩, ⟨"b", "b.txt", 1, "t", 9⟩], ?_, ?_⟩
    · rfl
    · decide

/-- Witness for C7 at a concrete open state. -/
theorem getByIDs_empty_shortcircuit_witness :
    getMessagesByIDs twoFilesState [] = .ok ([], 0) ∧
    getFilesByIDs twoFilesState [] = .ok ([], 0) ∧
    (∃ out, getFilesByIDs twoFilesState ["b", "a"] = .ok (out, 1) ∧
      out.map (fun f => f.id) ≠ ["b", "a"]) :=
  getByIDs_empty_shortcircuit twoFilesState rfl

/-- C4: `editChatByID` applies exactly the fields present in the partial
update and keeps the stored value for absent ones; it returns the
post-update record, and not-found (state unchanged) when the id is absent.
The name-only instance leaves `creatorID` and `createdAt` unchanged. -/
theorem editChatByID_keeps_absent_fields (s : DBState) (id : String)
    (u : ChatPatch) (hopen : s.isOpen = true) :
    ((∀ r ∈ s.chats, r.id ≠ id) → editChatByID s id u = .ok (none, s)) ∧
    (∀ r, s.chats.find? (fun r0 => r0.id == id) = some r →
      ∃ c s', editChatByID s id u = .ok (some c, s') ∧
        c.id = r.id ∧
        c.name = u.name.getD r.name ∧
        c.creatorID = u.creatorID.getD r.creatorID ∧
        c.createdAt = u.createdAt.getD r.createdAt ∧
        (∀ n, u = ⟨some n, none, none⟩ →
          c.name = n ∧ c.creatorID = r.creatorID ∧
          c.createdAt = r.createdAt)) := by
  constructor
  · intro habs
    have hmap : s.chats.map
        (fun r => if r.id == id then applyChatPatch u r else r) = s.chats := by
      refine (List.map_congr_left ?_).trans (List.map_id s.chats)
      intro r hr
      simp [beq_eq_false_iff_ne, habs r hr]
    have hnone : s.chats.find? (fun r0 => r0.id == id) = none := by
      simp only [List.find?_eq_none, beq_iff_eq]
      exact fun r hr => habs r hr
    obtain ⟨op, chats, msgs, steps, files⟩ := s
    simp only at hopen hmap hnone
    subst hopen
    simp only [editChatByID, Bool.not_true, Bool.false_eq_true,
      if_false, hmap, getChatByID, hnone]
    rfl
  · intro r hfind
    have hpred := List.find?_some hfind
    have hpeq : (fun x : ChatRow =>
        ((if x.id == id then applyChatPatch u x else x).id == id)) =
        (fun x : ChatRow => x.id == id) := by
      funext x
      by_cases h : (x.id == id) = true
      · simp [h, applyChatPatch]
      · simp [h]
    have hfmap : (s.chats.map
        (fun x => if x.id == id then applyChatPatch u x else x)).find?
        (fun r0 => r0.id == id) = some (applyChatPatch u r) := by
      rw [List.find?_map]
      simp only [Function.comp_def]
      rw [hpeq, hfind]
      show some (if (r.id == id) = true then applyChatPatch u r else r) =
        some (applyChatPatch u r)
      rw [if_pos hpred]
    refine ⟨rowToChat (applyChatPatch u r),
      { s with chats := s.chats.map (fun x => if x.id == id then applyChatPatch u x else x) },
      ?_, rfl, rfl, rfl, rfl, ?_⟩
    · simp only [editChatByID, hopen, Bool.not_true, Bool.false_eq_true,
        if_false, getChatByID, hfmap, Option.map_some]
      rfl
    · intro n hu
      subst hu
      exact ⟨rfl, rfl, rfl⟩

/-- Witness for C4: a name-only update of an existing chat. -/
theorem editChatByID_keeps_absent_fields_witness :
    ∃ c s', editChatByID sampleState "x" ⟨some "renamed", none, none⟩ =
        .ok (some c, s') ∧
      c.id = "x" ∧
      c.name = (some "renamed").getD "general" ∧
      c.creatorID = Option.none.getD "u1" ∧
      c.createdAt = Option.none.getD 1 ∧
      (∀ n, (⟨some "renamed", none, none⟩ : ChatPatch) = ⟨some n, none, none⟩ →
        c.name = n ∧ c.creatorID = "u1" ∧ c.createdAt = 1) :=
  (editChatByID_keeps_absent_fields sampleState "x" ⟨some "renamed", none, none⟩
    rfl).2 ⟨"x", "general", "u1", 1⟩ rfl

/-- Membership: `List.contains` is the decision of membership (strings use a lawful
equality test). -/
theorem contains_eq_mem (l : List String) (a : String) :
    l.contains a = decide (a ∈ l) := by
  show l.elem a = decide (a ∈ l)
  rw [List.elem_eq_mem]

/-- C6: `deleteOldFiles(T)` returns exactly the ids of the files with
`createdAt < T`, removes exactly those rows, and each returned id is
afterwards not-found by `getFileByID`.  (Ids are pairwise distinct in any
reachable state, `id` being the primary key.) -/
theorem deleteOldFiles_two_phase (s : DBState) (T : Int)
    (hopen : s.isOpen = true)
    (hnd : (s.files.map (fun r => r.id)).Nodup) :
    ∃ ids s', deleteOldFiles s T = .ok (ids, s') ∧
      (∀ fid, fid ∈ ids ↔ ∃ r ∈ s.files, r.id = fid ∧ r.createdAt < T) ∧
      s'.files = s.files.filter (fun r => !decide (r.createdAt < T)) ∧
      (∀ fid ∈ ids, getFileByID s' fid = .ok none) := by
  have hmem : ∀ fid,
      fid ∈ (s.files.filter (fun r => decide (r.createdAt < T))).map
        (fun r => r.id) ↔
      ∃ r ∈ s.files, r.id = fid ∧ r.createdAt < T := by
    intro fid
    rw [List.mem_map]
    constructor
    · rintro ⟨r, hrf, rfl⟩
      have h2 := List.mem_filter.mp hrf
      exact ⟨r, h2.1, rfl, by simpa using h2.2⟩
    · rintro ⟨r, hr, rfl, hlt⟩
      exact ⟨r, List.mem_filter.mpr ⟨hr, by simpa using hlt⟩, rfl⟩
  by_cases hemp : ((s.files.filter
      (fun r => decide (r.createdAt < T))).map (fun r => r.id)).isEmpty = true
  · have hids0 : (s.files.filter (fun r => decide (r.createdAt < T))).map
        (fun r => r.id) = [] := by
      simpa [List.isEmpty_iff] using hemp
    have hf0 : s.files.filter (fun r => decide (r.createdAt < T)) = [] :=
      List.map_eq_nil.mp hids0
    have hkeep : s.files.filter (fun r => !decide (r.createdAt < T)) =
        s.files := by
      rw [List.filter_eq_self]
      intro r hr
      have := List.filter_eq_nil.mp hf0 r hr
      simpa using this
    refine ⟨_, s, ?_, hmem, hkeep.symm, ?_⟩
    · simp only [deleteOldFiles, hopen, Bool.not_true, Bool.false_eq_true,
        if_false, hemp, if_true]
    · intro fid hfid
      rw [hids0] at hfid
      cases hfid
  · have hcong : s.files.filter (fun r =>
        !((s.files.filter (fun r0 => decide (r0.createdAt < T))).map
          (fun r0 => r0.id)).contains r.id) =
        s.files.filter (fun r => !decide (r.createdAt < T)) := by
      apply List.filter_congr
      intro r hr
      have hc : (((s.files.filter (fun r0 => decide (r0.createdAt < T))).map
          (fun r0 => r0.id)).contains r.id) = decide (r.createdAt < T) := by
        rw [contains_eq_mem, decide_eq_decide]
        rw [hmem r.id]
        constructor
        · rintro ⟨r', hr', hid, hlt⟩
          have : r' = r := List.inj_on_of_nodup_map hnd hr' hr hid
          exact this ▸ hlt
        · intro hlt
          exact ⟨r, hr, rfl, hlt⟩
      rw [hc]
    refine ⟨_,
      { s with files := s.files.filter (fun r =>
          !((s.files.filter (fun r0 => decide (r0.createdAt < T))).map
            (fun r0 => r0.id)).contains r.id) },
      ?_, hmem, hcong, ?_⟩
    · simp only [deleteOldFiles, hopen, Bool.not_true, Bool.false_eq_true,
        if_false, hemp]
    · intro fid hfid
      have hnone : (s.files.filter (fun r =>
          !((s.files.filter (fun r0 => decide (r0.createdAt < T))).map
            (fun r0 => r0.id)).contains r.id)).find?
          (fun r0 => r0.id == fid) = none := by
        rw [List.find?_eq_none]
        intro x hx
        have hxmem := List.mem_filter.mp hx
        intro hbeq
        have hxid : x.id = fid := by simpa using hbeq
        have : (((s.files.filter (fun r0 => decide (r0.createdAt < T))).map
            (fun r0 => r0.id)).contains x.id) = false := by
          simpa using hxmem.2
        rw [contains_eq_mem, decide_eq_false_iff_not] at this
        exact this (hxid ▸ hfid)
      simp only [getFileByID, hopen, Bool.not_true, Bool.false_eq_true,
        if_false, hnone, Option.map_none]
      rfl

/-- Witness for C6 at a state with one old and one recent file. -/
theorem deleteOldFiles_two_phase_witness :
    ∃ ids s', deleteOldFiles twoFilesState 5 = .ok (ids, s') ∧
      (∀ fid, fid ∈ ids ↔ ∃ r ∈ twoFilesState.files, r.id = fid ∧
        r.createdAt < 5) ∧
      s'.files = twoFilesState.files.filter
        (fun r => !decide (r.createdAt < 5)) ∧
      (∀ fid ∈ ids, getFileByID s' fid = .ok none) :=
  deleteOldFiles_two_phase twoFilesState 5 rfl (by decide)

/-- A failing `rowToMessage` always fails with the serialization kind. -/
theorem rowToMessage_err (r : MessageRow) (e : DBErr)
    (h : rowToMessage r = .error e) : e = DBErr.serializationError := by
  unfold rowToMessage at h
  rcases r with ⟨i, c, sn, rt, th, sc, st, b, rr, ca⟩
  cases b with
  | malformed t => simpa using h.symm
  | wellFormed v =>
    cases rr with
    | none => simp at h
    | some t =>
      by_cases ht : t.truthy = true
      · cases t with
        | malformed u => simp [ht] at h; exact h.symm
        | wellFormed w => simp [ht] at h
      · simp [ht] at h

/-- A failing `rowsToMessages` always fails with the serialization kind. -/
theorem rowsToMessages_err (l : List MessageRow) (e : DBErr)
    (h : rowsToMessages l = .error e) : e = DBErr.serializationError := by
  induction l with
  | nil => simp [rowsToMessages] at h
  | cons r rs ih =>
    unfold rowsToMessages at h
    cases hro : rowToMessage r with
    | error e2 =>
      rw [hro] at h
      cases h
      exact rowToMessage_err r e hro
    | ok m =>
      rw [hro] at h
      cases hrs : rowsToMessages rs with
      | error e2 =>
        rw [hrs] at h
        cases h
        exact ih hrs
      | ok ms => rw [hrs] at h; cases h

/-- C5: after `close()` every CRUD operation of every entity kind fails with
the not-open error kind, and once `open()` is called again none of them
fails with it any more. -/
theorem notOpen_after_close (s : DBState) (c : Chat) (m : Message)
    (cs : ConfirmedStep) (f : FileMeta) (u : ChatPatch)
    (id creator chatID threadID : String) (ids : List String)
    (offset limit : Nat) (T : Int) :
    (addChat (close s) c = .error DBErr.notOpenError ∧
     getChatByID (close s) id = .error DBErr.notOpenError ∧
     getChatsByCreatorID (close s) creator offset limit =
       .error DBErr.notOpenError ∧
     countChatsByCreatorID (close s) creator = .error DBErr.notOpenError ∧
     editChatByID (close s) id u = .error DBErr.notOpenError ∧
     deleteChatByID (close s) id = .error DBErr.notOpenError ∧
     addMessage (close s) m = .error DBErr.notOpenError ∧
     getMessageByID (close s) id = .error DBErr.notOpenError ∧
     getMessagesByIDs (close s) ids = .error DBErr.notOpenError ∧
     getMessagesByChatID (close s) chatID offset limit =
       .error DBErr.notOpenError ∧
     deleteOldMessages (close s) T = .error DBErr.notOpenError ∧
     deleteMessagesByChatID (close s) chatID = .error DBErr.notOpenError ∧
     addConfirmedStep (close s) cs = .error DBErr.notOpenError ∧
     getConfirmedStepsByThreadID (close s) threadID =
       .error DBErr.notOpenError ∧
     deleteOldConfirmedSteps (close s) T = .error DBErr.notOpenError ∧
     addFile (close s) f = .error DBErr.notOpenError ∧
     getFileByID (close s) id = .error DBErr.notOpenError ∧
     getFilesByIDs (close s) ids = .error DBErr.notOpenError ∧
     deleteFileByID (close s) id = .error DBErr.notOpenError ∧
     deleteOldFiles (close s) T = .error DBErr.notOpenError) ∧
    (addChat (openDB (close s)) c ≠ .error DBErr.notOpenError ∧
     getChatByID (openDB (close s)) id ≠ .error DBErr.notOpenError ∧
     getChatsByCreatorID (openDB (close s)) creator offset limit ≠
       .error DBErr.notOpenError ∧
     countChatsByCreatorID (openDB (close s)) creator ≠
       .error DBErr.notOpenError ∧
     editChatByID (openDB (close s)) id u ≠ .error DBErr.notOpenError ∧
     deleteChatByID (openDB (close s)) id ≠ .error DBErr.notOpenError ∧
     addMessage (openDB (close s)) m ≠ .error DBErr.notOpenError ∧
     getMessageByID (openDB (close s)) id ≠ .error DBErr.notOpenError ∧
     getMessagesByIDs (openDB (close s)) ids ≠ .error DBErr.notOpenError ∧
     getMessagesByChatID (openDB (close s)) chatID offset limit ≠
       .error DBErr.notOpenError ∧
     deleteOldMessages (openDB (close s)) T ≠ .error DBErr.notOpenError ∧
     deleteMessagesByChatID (openDB (close s)) chatID ≠
       .error DBErr.notOpenError ∧
     addConfirmedStep (openDB (close s)) cs ≠ .error DBErr.notOpenError ∧
     getConfirmedStepsByThreadID (openDB (close s)) threadID ≠
       .error DBErr.notOpenError ∧
     deleteOldConfirmedSteps (openDB (close s)) T ≠
       .error DBErr.notOpenError ∧
     addFile (openDB (close s)) f ≠ .error DBErr.notOpenError ∧
     getFileByID (openDB (close s)) id ≠ .error DBErr.notOpenError ∧
     getFilesByIDs (openDB (close s)) ids ≠ .error DBErr.notOpenError ∧
     deleteFileByID (openDB (close s)) id ≠ .error DBErr.notOpenError ∧
     deleteOldFiles (openDB (close s)) T ≠ .error DBErr.notOpenError) := by
  refine ⟨⟨rfl, rfl, rfl, rfl, rfl, rfl, rfl, rfl, rfl, rfl, rfl, rfl, rfl,
    rfl, rfl, rfl, rfl, rfl, rfl, rfl⟩,
    ?_, ?_, ?_, ?_, ?_, ?_, ?_, ?_, ?_, ?_, ?_, ?_, ?_, ?_, ?_, ?_, ?_, ?_,
    ?_, ?_⟩
  · simp only [addChat, openDB, close, Bool.not_true, Bool.false_eq_true,
      if_false]
    split <;> simp
  · simp only [getChatByID, openDB, close, Bool.not_true, Bool.false_eq_true,
      if_false]
    simp
  · simp only [getChatsByCreatorID, openDB, close, Bool.not_true,
      Bool.false_eq_true, if_false]
    simp
  · simp only [countChatsByCreatorID, openDB, close, Bool.not_true,
      Bool.false_eq_true, if_false]
    simp
  · simp only [editChatByID, openDB, close, getChatByID, Bool.not_true,
      Bool.false_eq_true, if_false]
    simp
  · simp only [deleteChatByID, openDB, close, Bool.not_true,
      Bool.false_eq_true, if_false]
    split <;> simp
  · simp only [addMessage, openDB, close, Bool.not_true, Bool.false_eq_true,
      if_false]
    split <;> simp
  · simp only [getMessageByID, openDB, close, Bool.not_true,
      Bool.false_eq_true, if_false]
    split
    · simp
    · split
      · rename_i e heq
        have he := rowToMessage_err _ e heq
        simp [he]
      · simp
  · simp only [getMessagesByIDs, openDB, close, Bool.not_true,
      Bool.false_eq_true, if_false]
    split
    · simp
    · split
      · rename_i e heq
        have he := rowsToMessages_err _ e heq
        simp [he]
      · simp
  · simp only [getMessagesByChatID, openDB, close, Bool.not_true,
      Bool.false_eq_true, if_false]
    split
    · rename_i e heq
      have he := rowsToMessages_err _ e heq
      simp [he]
    · simp
  · simp only [deleteOldMessages, openDB, close, Bool.not_true,
      Bool.false_eq_true, if_false]
    simp
  · simp only [deleteMessagesByChatID, openDB, close, Bool.not_true,
      Bool.false_eq_true, if_false]
    simp
  · simp only [addConfirmedStep, openDB, close, Bool.not_true,
      Bool.false_eq_true, if_false]
    split <;> simp
  · simp only [getConfirmedStepsByThreadID, openDB, close, Bool.not_true,
      Bool.false_eq_true, if_false]
    simp
  · simp only [deleteOldConfirmedSteps, openDB, close, Bool.not_true,
      Bool.false_eq_true, if_false]
    simp
  · simp only [addFile, openDB, close, Bool.not_true, Bool.false_eq_true,
      if_false]
    split <;> simp
  · simp only [getFileByID, openDB, close, Bool.not_true, Bool.false_eq_true,
      if_false]
    simp
  · simp only [getFilesByIDs, openDB, close, Bool.not_true,
      Bool.false_eq_true, if_false]
    split <;> simp
  · simp only [deleteFileByID, openDB, close, Bool.not_true,
      Bool.false_eq_true, if_false]
    split <;> simp
  · simp only [deleteOldFiles, openDB, close, Bool.not_true,
      Bool.false_eq_true, if_false]
    split <;> simp

/-- Irreflexivity of `charListLt`. -/
theorem charListLt_irrefl (a : List Char) : charListLt a a = false := by
  induction a with
  | nil => rfl
  | cons x xs ih => simp [charListLt, lt_irrefl, ih]

/-- Asymmetry of `charListLt`. -/
theorem charListLt_asymm (a b : List Char) (h : charListLt a b = true) :
    charListLt b a = false := by
  induction a generalizing b with
  | nil =>
    cases b with
    | nil => simp [charListLt] at h
    | cons y ys => rfl
  | cons x xs ih =>
    cases b with
    | nil => simp [charListLt] at h
    | cons y ys =>
      by_cases hxy : x < y
      · have hyx : ¬ y < x := lt_asymm hxy
        simp [charListLt, hxy, hyx]
      · by_cases hyx : y < x
        · simp [charListLt, hxy, hyx] at h
        · simp only [charListLt, if_neg hxy, if_neg hyx] at h
          simp only [charListLt, if_neg hyx, if_neg hxy]
          exact ih ys h

/-- Transitivity of `charListLt`. -/
theorem charListLt_trans (a b c : List Char) (h1 : charListLt a b = true)
    (h2 : charListLt b c = true) : charListLt a c = true := by
  induction a generalizing b c with
  | nil =>
    cases b with
    | nil => simp [charListLt] at h1
    | cons y ys =>
      cases c with
      | nil => simp [charListLt] at h2
      | cons z zs => rfl
  | cons x xs ih =>
    cases b with
    | nil => simp [charListLt] at h1
    | cons y ys =>
      cases c with
      | nil => simp [charListLt] at h2
      | cons z zs =>
        by_cases hxy : x < y
        · by_cases hyz : y < z
          · simp [charListLt, lt_trans hxy hyz]
          · by_cases hzy : z < y
            · simp [charListLt, if_neg hyz, if_pos hzy] at h2
            · have heq : y = z := le_antisymm (not_lt.mp hzy) (not_lt.mp hyz)
              subst heq
              simp [charListLt, hxy]
        · by_cases hyx : y < x
          · simp [charListLt, if_neg hxy, if_pos hyx] at h1
          · have heq : x = y := le_antisymm (not_lt.mp hyx) (not_lt.mp hxy)
            subst heq
            simp only [charListLt, if_neg hxy, if_neg hyx] at h1
            by_cases hxz : x < z
            · simp [charListLt, hxz]
            · by_cases hzx : z < x
              · simp [charListLt, if_neg hxz, if_pos hzx] at h2
              · have heq2 : x = z := le_antisymm (not_lt.mp hzx)
                  (not_lt.mp hxz)
                subst heq2
                simp only [charListLt, if_neg hxz, if_neg hzx] at h2 ⊢
                exact ih ys zs h1 h2

/-- Lists that are mutually not below each other are equal. -/
theorem charListLt_connex (a b : List Char) (h1 : charListLt a b = false)
    (h2 : charListLt b a = false) : a = b := by
  induction a generalizing b with
  | nil =>
    cases b with
    | nil => rfl
    | cons y ys => simp [charListLt] at h1
  | cons x xs ih =>
    cases b with
    | nil => simp [charListLt] at h2
    | cons y ys =>
      by_cases hxy : x < y
      · simp [charListLt, hxy] at h1
      · by_cases hyx : y < x
        · simp [charListLt, hyx] at h2
        · have heq : x = y := le_antisymm (not_lt.mp hyx) (not_lt.mp hxy)
          subst heq
          simp only [charListLt, if_neg hxy, if_neg hyx] at h1 h2
          rw [ih ys h1 h2]

/-- Irreflexivity of `strLt`. -/
theorem strLt_irrefl (a : String) : strLt a a = false :=
  charListLt_irrefl a.data

/-- Asymmetry of `strLt`. -/
theorem strLt_asymm (a b : String) (h : strLt a b = true) :
    strLt b a = false :=
  charListLt_asymm a.data b.data h

/-- Transitivity of `strLt`. -/
theorem strLt_trans (a b c : String) (h1 : strLt a b = true)
    (h2 : strLt b c = true) : strLt a c = true :=
  charListLt_trans a.data b.data c.data h1 h2

/-- Strings that are mutually not below each other are equal. -/
theorem strLt_connex (a b : String) (h1 : strLt a b = false)
    (h2 : strLt b a = false) : a = b := by
  cases a with
  | mk da =>
    cases b with
    | mk db =>
      have h3 : da = db := charListLt_connex da db h1 h2
      rw [h3]

/-- The `ORDER BY createdAt DESC, id DESC` comparator is total. -/
theorem msgRowLe_total (a b : MessageRow) :
    (msgRowLe a b || msgRowLe b a) = true := by
  unfold msgRowLe
  rcases lt_trichotomy a.createdAt b.createdAt with h | h | h
  · simp [h]
  · by_cases hab : strLt a.id b.id = true
    · have hba := strLt_asymm _ _ hab
      simp [h, hab, hba]
    · have hab2 : strLt a.id b.id = false := by simpa using hab
      simp [h, hab2]
  · simp [h]

/-- The `ORDER BY createdAt DESC, id DESC` comparator is transitive. -/
theorem msgRowLe_trans (a b c : MessageRow) (h1 : msgRowLe a b = true)
    (h2 : msgRowLe b c = true) : msgRowLe a c = true := by
  unfold msgRowLe at h1 h2 ⊢
  simp only [Bool.or_eq_true, Bool.and_eq_true, decide_eq_true_eq,
    beq_iff_eq, Bool.not_eq_true'] at h1 h2 ⊢
  rcases h1 with h1 | ⟨hceq1, hid1⟩
  · rcases h2 with h2 | ⟨hceq2, hid2⟩
    · exact Or.inl (lt_trans h2 h1)
    · exact Or.inl (by omega)
  · rcases h2 with h2 | ⟨hceq2, hid2⟩
    · exact Or.inl (by omega)
    · refine Or.inr ⟨by omega, ?_⟩
      by_cases hac : strLt a.id c.id = true
      · exfalso
        by_cases hba : strLt b.id a.id = true
        · by_cases hcb : strLt c.id b.id = true
          · have hca : strLt c.id a.id = true := strLt_trans _ _ _ hcb hba
            have haa : strLt a.id a.id = true := strLt_trans _ _ _ hac hca
            rw [strLt_irrefl a.id] at haa
            exact Bool.false_ne_true haa
          · have hcb2 : strLt c.id b.id = false := by simpa using hcb
            have hbc : b.id = c.id := strLt_connex _ _ hid2 hcb2
            rw [← hbc] at hac
            rw [hid1] at hac
            exact Bool.false_ne_true hac
        · have hba2 : strLt b.id a.id = false := by simpa using hba
          have hab : a.id = b.id := strLt_connex _ _ hid1 hba2
          rw [hab] at hac
          rw [hid2] at hac
          exact Bool.false_ne_true hac
      · simpa using hac

/-- A row satisfying the no-corruption invariant decodes to its total
decoding. -/
theorem rowToMessage_parses (r : MessageRow) (h : RowParses r) :
    rowToMessage r = .ok (rowToMessageOk r) := by
  obtain ⟨⟨v, hb⟩, hrr⟩ := h
  cases hr2 : r.replyRestriction with
  | none => simp [rowToMessage, rowToMessageOk, hb, hr2]
  | some t =>
    cases t with
    | wellFormed w => simp [rowToMessage, rowToMessageOk, hb, hr2,
        JsonText.truthy]
    | malformed t2 =>
      have ht2 := hrr t2 hr2
      subst ht2
      simp [rowToMessage, rowToMessageOk, hb, hr2, JsonText.truthy]

/-- Decoding a list of rows that all satisfy the invariant succeeds and is
the pointwise total decoding. -/
theorem rowsToMessages_ok (l : List MessageRow)
    (h : ∀ r ∈ l, RowParses r) :
    rowsToMessages l = .ok (l.map rowToMessageOk) := by
  induction l with
  | nil => rfl
  | cons r rs ih =>
    have h1 := rowToMessage_parses r (h r (List.mem_cons_self r rs))
    have h2 := ih (fun x hx => h x (List.mem_cons_of_mem r hx))
    simp [rowsToMessages, h1, h2]

/-- C2: for any chat, `getMessagesByChatID` returns the chat's messages
ordered by `createdAt` descending with, on equal timestamps, the
lexicographically greater id first; the result is the `LIMIT/OFFSET` window
of the full sorted list, and the defaulted call uses offset 0, limit 100. -/
theorem getMessagesByChatID_sorted (s : DBState) (chatID : String)
    (offset limit : Nat)
    (hopen : s.isOpen = true)
    (hnd : (s.messages.map (fun r => r.id)).Nodup)
    (hwf : ∀ r ∈ s.messages, RowParses r) :
    ∃ msgs, getMessagesByChatID s chatID offset limit = .ok msgs ∧
      getMessagesByChatIDDefault s chatID =
        getMessagesByChatID s chatID 0 100 ∧
      (∀ m ∈ msgs, m.chatID = chatID) ∧
      msgs.length ≤ limit ∧
      List.Chain' (fun a b : Message => b.createdAt < a.createdAt ∨
        (b.createdAt = a.createdAt ∧ strLt b.id a.id = true)) msgs ∧
      (∃ allMsgs, getMessagesByChatID s chatID 0 s.messages.length =
          .ok allMsgs ∧ msgs = (allMsgs.drop offset).take limit) := by
  have hsubflt : ∀ o l : Nat,
      ((((s.messages.filter (fun r => r.chatID == chatID)).mergeSort
        msgRowLe).drop o).take l).Sublist ((s.messages.filter
        (fun r => r.chatID == chatID)).mergeSort msgRowLe) :=
    fun o l => (List.take_sublist _ _).trans (List.drop_sublist _ _)
  have hperm := List.mergeSort_perm
    (s.messages.filter (fun r => r.chatID == chatID)) msgRowLe
  have hmemflt : ∀ r ∈ (s.messages.filter
      (fun r => r.chatID == chatID)).mergeSort msgRowLe,
      r ∈ s.messages := by
    intro r hr
    exact (List.mem_filter.mp (hperm.mem_iff.mp hr)).1
  have hok : ∀ o l : Nat, rowsToMessages ((((s.messages.filter
      (fun r => r.chatID == chatID)).mergeSort msgRowLe).drop o).take l) =
      .ok (((((s.messages.filter (fun r => r.chatID == chatID)).mergeSort
        msgRowLe).drop o).take l).map rowToMessageOk) := by
    intro o l
    apply rowsToMessages_ok
    intro r hr
    exact hwf r (hmemflt r ((hsubflt o l).subset hr))
  have heq : ∀ o l : Nat, getMessagesByChatID s chatID o l =
      .ok (((((s.messages.filter (fun r => r.chatID == chatID)).mergeSort
        msgRowLe).drop o).take l).map rowToMessageOk) := by
    intro o l
    simp only [getMessagesByChatID, hopen, Bool.not_true, Bool.false_eq_true,
      if_false, hok]
  have hsorted := List.sorted_mergeSort msgRowLe_trans msgRowLe_total
    (s.messages.filter (fun r => r.chatID == chatID))
  have hPle : List.Pairwise (fun a b => msgRowLe a b = true)
      ((((s.messages.filter (fun r => r.chatID == chatID)).mergeSort
        msgRowLe).drop offset).take limit) :=
    List.Pairwise.sublist (hsubflt offset limit) hsorted
  have hndflt : ((s.messages.filter (fun r => r.chatID == chatID)).map
      (fun r => r.id)).Nodup :=
    ((List.filter_sublist s.messages).map (fun r => r.id)).nodup hnd
  have hndsort : (((s.messages.filter
      (fun r => r.chatID == chatID)).mergeSort msgRowLe).map
      (fun r => r.id)).Nodup :=
    ((hperm.map (fun r => r.id)).symm).nodup hndflt
  have hndsub : (((((s.messages.filter
      (fun r => r.chatID == chatID)).mergeSort msgRowLe).drop offset).take
      limit).map (fun r => r.id)).Nodup :=
    (((hsubflt offset limit).map (fun r => r.id)).nodup hndsort)
  have hne : List.Pairwise (fun a b : MessageRow => a.id ≠ b.id)
      ((((s.messages.filter (fun r => r.chatID == chatID)).mergeSort
        msgRowLe).drop offset).take limit) :=
    List.pairwise_map.mp hndsub
  have hstrict : List.Pairwise (fun a b : MessageRow =>
      b.createdAt < a.createdAt ∨
      (b.createdAt = a.createdAt ∧ strLt b.id a.id = true))
      ((((s.messages.filter (fun r => r.chatID == chatID)).mergeSort
        msgRowLe).drop offset).take limit) := by
    refine (hPle.and hne).imp ?_
    rintro a b ⟨hab, hne2⟩
    unfold msgRowLe at hab
    simp only [Bool.or_eq_true, Bool.and_eq_true, decide_eq_true_eq,
      beq_iff_eq, Bool.not_eq_true'] at hab
    rcases hab with h | ⟨hceq, hid⟩
    · exact Or.inl h
    · right
      refine ⟨hceq.symm, ?_⟩
      by_cases hba : strLt b.id a.id = true
      · exact hba
      · have hba2 : strLt b.id a.id = false := by simpa using hba
        exact absurd (strLt_connex _ _ hid hba2) hne2
  have hchain : List.Chain' (fun a b : Message =>
      b.createdAt < a.createdAt ∨
      (b.createdAt = a.createdAt ∧ strLt b.id a.id = true))
      (((((s.messages.filter (fun r => r.chatID == chatID)).mergeSort
        msgRowLe).drop offset).take limit).map rowToMessageOk) := by
    apply List.Pairwise.chain'
    apply List.pairwise_map.mpr
    exact hstrict
  have hmemchat : ∀ m ∈ ((((s.messages.filter
      (fun r => r.chatID == chatID)).mergeSort msgRowLe).drop offset).take
      limit).map rowToMessageOk, m.chatID = chatID := by
    intro m hm
    rw [List.mem_map] at hm
    rcases hm with ⟨r, hr, rfl⟩
    have hrf : r ∈ s.messages.filter (fun r => r.chatID == chatID) :=
      hperm.mem_iff.mp ((hsubflt offset limit).subset hr)
    have hc := (List.mem_filter.mp hrf).2
    simpa [rowToMessageOk] using hc
  have hlen : (((((s.messages.filter
      (fun r => r.chatID == chatID)).mergeSort msgRowLe).drop offset).take
      limit).map rowToMessageOk).length ≤ limit := by
    rw [List.length_map]
    exact List.length_take_le _ _
  have htake_all : (((s.messages.filter
      (fun r => r.chatID == chatID)).mergeSort msgRowLe).drop 0).take
      s.messages.length =
      (s.messages.filter (fun r => r.chatID == chatID)).mergeSort msgRowLe := by
    rw [List.drop_zero]
    apply List.take_of_length_le
    rw [hperm.length_eq]
    exact List.length_filter_le _ _
  refine ⟨_, heq offset limit, rfl, hmemchat, hlen, hchain, ?_⟩
  refine ⟨_, heq 0 s.messages.length, ?_⟩
  rw [htake_all, List.map_take, List.map_drop]

/-- Witness for C2 at a concrete state with tied timestamps. -/
theorem getMessagesByChatID_sorted_witness :
    ∃ msgs, getMessagesByChatID sortState "c1" 0 100 = .ok msgs ∧
      getMessagesByChatIDDefault sortState "c1" =
        getMessagesByChatID sortState "c1" 0 100 ∧
      (∀ m ∈ msgs, m.chatID = "c1") ∧
      msgs.length ≤ 100 ∧
      List.Chain' (fun a b : Message => b.createdAt < a.createdAt ∨
        (b.createdAt = a.createdAt ∧ strLt b.id a.id = true)) msgs ∧
      (∃ allMsgs, getMessagesByChatID sortState "c1" 0
          sortState.messages.length = .ok allMsgs ∧
        msgs = (allMsgs.drop 0).take 100) :=
  getMessagesByChatID_sorted sortState "c1" 0 100 rfl (by decide)
    (by
      intro r hr
      simp only [sortState, List.mem_cons, List.not_mem_nil, or_false] at hr
      rcases hr with rfl | rfl | rfl | rfl <;>
        exact ⟨⟨_, rfl⟩, fun t ht => nomatch ht⟩)

end SqliteDatabase
